import Mathlib

/-!
Verification of the medical-extraction tech-test repository.

The frontend service layer (`frontend/src/services/api.js`) and the chat
component (`frontend/src/components/ChatInterface.js`) are embedded as pure
Lean functions.  JavaScript strings become `String`, `null`-able values become
`Option`, a thrown `Error` becomes the `Except.error` branch carrying the
error message, and the React `messages` state becomes an explicit
`List Msg` that each handler transforms.  The platform URL parser (`new URL`)
is external to the repository and is passed in as a parameter returning the
parsed pathname, `none` on a parse failure.

The backend (`medical_extraction_system.py`, `flask_backend.py`) is not part
of the sources; the definitions in the `Backend` section are modelled from
the specification, as marked on each.
-/

namespace TechTest

/-! ## JavaScript semantics helpers -/

/-- Truthiness of a JS `string | null` value: `null` and the empty string are
falsy, every other string truthy. -/
def jsTruthy : Option String → Bool
  | none => false
  | some s => s != ""

/-- JS `a || b` where `a` is a possibly-absent string field: falls through to
`b` when `a` is `undefined` or falsy (empty). -/
def jsOr : Option String → String → String
  | none, b => b
  | some a, b => if a = "" then b else a

/-- JS `String.prototype.toLowerCase` (ASCII model via `Char.toLower`). -/
def toLowerStr (s : String) : String := String.mk (s.data.map Char.toLower)

/-- JS `String.prototype.trim`: strip whitespace from both ends. -/
def trimStr (s : String) : String :=
  String.mk (((s.data.dropWhile Char.isWhitespace).reverse.dropWhile
    Char.isWhitespace).reverse)

/-- JS `String.prototype.includes`: `needle` occurs contiguously in the
haystack character list. -/
def listContainsSub (needle : List Char) : List Char → Bool
  | [] => needle.isEmpty
  | c :: rest => List.isPrefixOf needle (c :: rest) || listContainsSub needle rest

/-- JS `hay.includes(needle)` on strings. -/
def strContainsSub (hay needle : String) : Bool :=
  listContainsSub needle.data hay.data

/-! ## `frontend/src/services/api.js` -/

/-- Body of an HTTP error response as the service layer reads it:
`error.response.data.error`, which may be absent. -/
structure RespBody where
  errorField : Option String

/-- An axios failure: `error.message` is always present; `error.response` is
present exactly when the server responded with an error status. -/
structure AxiosError where
  message : String
  response : Option RespBody

/-- `healthCheck` catch clause (api.js lines 22-24). -/
def healthCheckErrMsg (e : AxiosError) : String :=
  "Health check failed: " ++ e.message

/-- `sendChatMessage` catch clause (api.js lines 37-42). -/
def sendChatErrMsg (e : AxiosError) : String :=
  match e.response with
  | some r => "Chat request failed: " ++ jsOr r.errorField e.message
  | none => "Network error: " ++ e.message

/-- `extractMedicalInfo` catch clause (api.js lines 50-55). -/
def extractInfoErrMsg (e : AxiosError) : String :=
  match e.response with
  | some r => "Extraction failed: " ++ jsOr r.errorField e.message
  | none => "Network error: " ++ e.message

/-- `generateDiagnosis` catch clause (api.js lines 65-70). -/
def generateDiagnosisErrMsg (e : AxiosError) : String :=
  match e.response with
  | some r => "Diagnosis generation failed: " ++ jsOr r.errorField e.message
  | none => "Network error: " ++ e.message

/-- `getSessions` catch clause (api.js lines 78-80). -/
def getSessionsErrMsg (e : AxiosError) : String :=
  "Failed to get sessions: " ++ e.message

/-- `deleteSession` catch clause (api.js lines 88-93). -/
def deleteSessionErrMsg (e : AxiosError) : String :=
  match e.response with
  | some r => "Failed to delete session: " ++ jsOr r.errorField e.message
  | none => "Network error: " ++ e.message

/-- `transcribeAudioFromUrl` catch clause (api.js lines 106-111). -/
def transcribeErrMsg (e : AxiosError) : String :=
  match e.response with
  | some r => "Audio transcription failed: " ++ jsOr r.errorField e.message
  | none => "Network error: " ++ e.message

/-- `getStatus` catch clause (api.js lines 119-121). -/
def getStatusErrMsg (e : AxiosError) : String :=
  "Failed to get system status: " ++ e.message

/-- Every service-layer call either returns the full response data or throws
the formatted message: no partial results (the shared try/catch shape of all
eight operations in api.js). -/
def runOp {α : Type} (errFmt : AxiosError → String)
    (net : Except AxiosError α) : Except String α :=
  match net with
  | .ok a => .ok a
  | .error e => .error (errFmt e)

/-- JSON body built by `sendChatMessage` (api.js lines 30-33):
`session_id = none` models the field being absent from the payload. -/
structure ChatPayload where
  message : String
  session_id : Option String

/-- Successful `/api/chat` response shape as consumed by the frontend
(ChatInterface.js lines 63-70). -/
structure ChatResponse where
  response : String
  agent_used : String
  session_id : String

/-- `sendChatMessage` payload construction (api.js lines 30-33): the
`session_id` key is added only when `sessionId` is truthy. -/
def sendChatMessagePayload (message : String) (sessionId : Option String) : ChatPayload :=
  { message := message
    session_id := if jsTruthy sessionId then sessionId else none }

/-- `sendChatMessage` end to end: build the payload, post it, pass the
response data through on success, throw the formatted message on failure. -/
def sendChatMessage (message : String) (sessionId : Option String)
    (net : ChatPayload → Except AxiosError ChatResponse) : Except String ChatResponse :=
  runOp sendChatErrMsg (net (sendChatMessagePayload message sessionId))

/-- The eight operations exposed by `apiService` (api.js lines 16-123). -/
inductive ApiOp
  | healthCheck
  | chat
  | extractInfo
  | diagnose
  | getSessions
  | deleteSession
  | transcribeUrl
  | getStatus
deriving DecidableEq

/-- Per-request timeout configuration: the shared axios instance is created
with no timeout (api.js lines 7-13, "No timeout - allow long-running medical
analysis requests"); only `transcribeAudioFromUrl` overrides it with
`timeout: 120000` (api.js line 102). -/
def requestTimeout : ApiOp → Option Nat
  | .transcribeUrl => some 120000
  | _ => none

/-! ## `frontend/src/components/ChatInterface.js` -/

/-- Audio extension whitelist (ChatInterface.js line 111). -/
def audioExtensions : List String := ["mp3", "wav", "m4a", "ogg", "flac", "aac"]

/-- `validateAudioUrl` (ChatInterface.js lines 107-117).  `parse` is the
platform URL parser projected to the pathname of the parsed URL, returning
`none` when `new URL(url)` would throw; the `catch` branch returns `false`. -/
def validateAudioUrl (parse : String → Option String) (url : String) : Bool :=
  match parse url with
  | none => false
  | some pathname =>
      let urlPath := toLowerStr pathname
      audioExtensions.any (fun ext => strContainsSub urlPath ("." ++ ext))

/-- Message kinds appearing in the chat transcript (`message.type`). -/
inductive MsgType
  | user
  | ai
  | error
  | system
deriving DecidableEq, BEq

/-- One entry of the `messages` state.  `id` models the `uuidv4()` value,
`agentUsed` is set only on AI messages; timestamps are not modelled (no
handler branches on them). -/
structure Msg where
  id : Nat
  mtype : MsgType
  content : String
  agentUsed : Option String := none
deriving DecidableEq

/-- `handleSendMessage` (ChatInterface.js lines 43-89) as a transcript
transformer.  `chat` is `apiService.sendChatMessage`; `uid`/`aid` are the
fresh uuids of the user and follow-up message.  Returns the new `messages`
list and the chat invocation performed, if any (message text, session id). -/
def handleSendMessage (input : String) (isLoading : Bool) (sessionId : String)
    (uid aid : Nat) (chat : String → String → Except String ChatResponse)
    (ms : List Msg) : List Msg × Option (String × String) :=
  if trimStr input = "" || isLoading then (ms, none)
  else
    let content := trimStr input
    let ms1 := ms ++ [{ id := uid, mtype := .user, content := content }]
    match chat content sessionId with
    | .ok r =>
        (ms1 ++ [{ id := aid, mtype := .ai, content := r.response,
                   agentUsed := some r.agent_used }],
         some (content, sessionId))
    | .error e =>
        (ms1 ++ [{ id := aid, mtype := .error, content := "Error: " ++ e }],
         some (content, sessionId))

/-- `handleAudioUrlSubmit` (ChatInterface.js lines 119-198) as a transcript
transformer.  `parse` is the platform URL parser used by `validateAudioUrl`,
`transcribe` is `apiService.transcribeAudioFromUrl`, `chat` is
`apiService.sendChatMessage`; `pid`, `uid`, `aid`, `eid` are the fresh uuids
of the processing, user, AI and error messages.  The success branch removes
the processing message by its id; the catch branch removes every message of
type `system` and appends one error message. -/
def handleAudioUrlSubmit (parse : String → Option String) (audioUrl : String)
    (sessionId : String) (pid uid aid eid : Nat)
    (transcribe : String → Except String String)
    (chat : String → String → Except String ChatResponse)
    (ms : List Msg) : List Msg × Option (String × String) :=
  if trimStr audioUrl = "" then (ms, none)
  else if validateAudioUrl parse audioUrl = false then (ms, none)
  else
    let ms1 := ms ++ [{ id := pid, mtype := .system,
                        content := "Processing audio from URL: " ++ audioUrl ++ "..." }]
    match transcribe audioUrl with
    | .error e =>
        ((ms1.filter (fun m => m.mtype != .system)) ++
          [{ id := eid, mtype := .error,
             content := "Error transcribing audio: " ++ e }],
         none)
    | .ok t =>
        let ms2 := ms1.filter (fun m => m.id != pid)
        let ms3 := ms2 ++ [{ id := uid, mtype := .user, content := t }]
        match chat t sessionId with
        | .ok r =>
            (ms3 ++ [{ id := aid, mtype := .ai, content := r.response,
                       agentUsed := some r.agent_used }],
             some (t, sessionId))
        | .error e =>
            ((ms3.filter (fun m => m.mtype != .system)) ++
              [{ id := eid, mtype := .error,
                 content := "Error transcribing audio: " ++ e }],
             some (t, sessionId))

/-! ## Backend core (modelled from the spec)

The backend sources (`backend/medical_extraction_system.py`,
`backend/flask_backend.py`) are not included in the repository snapshot; the
definitions below are modelled from the specification's data model (spec §3)
and tool contracts (spec §4.4). -/

/-- The explicit sentinel used for genuinely unknown fields (spec §3,
README "Not provided" defaults). -/
def notProvided : String := "Not provided"

/-- Modelled from the spec: the raw `PatientIdentification` as returned by
the external reasoning service, each field optional (the missing backend's
Pydantic model, README lines 49-55). -/
structure RawPatientIdentification where
  name : Option String
  age : Option Int
  identification_number : Option String
  gender : Option String
  phone : Option String
  address : Option String

/-- Modelled from the spec: the six patient-identification fields as they
appear in extraction output, every field structurally present (spec §3
invariant; the missing backend's post-processed output). -/
structure PatientFields where
  name : String
  age : String
  identification_number : String
  gender : String
  phone : String
  address : String

/-- Modelled from the spec: the name→gender heuristic table of the missing
backend's gender inference rule (spec §2 "Gender Inference Rule", §4.4;
README's examples `John -> Male`, `Maria -> Female`).  Ambiguous, foreign or
unisex first names are simply absent from the table. -/
def genderTable : List (String × String) :=
  [("John", "Male"), ("Maria", "Female"), ("Sarah", "Female"),
   ("Pedro", "Male"), ("Ana", "Female"), ("James", "Male")]

/-- First space-separated token of a full name. -/
def firstNameOf (name : String) : String :=
  String.mk (name.data.takeWhile (fun c => c != ' '))

/-- Table lookup for the gender heuristic: `none` on a name the table does
not know (ambiguous, foreign, unisex or absent). -/
def lookupGender (n : String) : Option String :=
  (genderTable.find? (fun p => p.1 == n)).map Prod.snd

/-- Modelled from the spec: the missing backend's pure gender inference
rule, failing soft to the sentinel on names outside the table (spec §4.4,
"must never raise"). -/
def inferGenderFromName (name : String) : String :=
  match lookupGender (firstNameOf name) with
  | some g => g
  | none => notProvided

/-- Modelled from the spec: the full gender defaulting rule of the missing
backend's extraction path — explicit gender wins, else inference from the
name, else the sentinel (spec §3, gender "defaults through inference before
falling back to the sentinel"). -/
def genderRule (explicit : Option String) (name : Option String) : String :=
  match explicit with
  | some g => g
  | none =>
      match name with
      | some n => inferGenderFromName n
      | none => notProvided

/-- Modelled from the spec: the missing backend's local post-processing of
patient identification — every omitted field is replaced by the sentinel,
gender goes through the inference rule (spec §4.4 `extract`). -/
def fillPatient (p : RawPatientIdentification) : PatientFields :=
  { name := p.name.getD notProvided
    age := match p.age with
           | some a => toString a
           | none => notProvided
    identification_number := p.identification_number.getD notProvided
    gender := genderRule p.gender p.name
    phone := p.phone.getD notProvided
    address := p.address.getD notProvided }

/-- Modelled from the spec: raw extraction result from the reasoning
service, before local post-processing (README lines 57-61). -/
structure RawExtraction where
  symptoms : List String
  patient_info : RawPatientIdentification
  reason_for_consultation : String

/-- Modelled from the spec: the `MedicalExtraction` produced by the missing
backend's `extract` tool after post-processing (spec §3, §4.4). -/
structure MedicalExtraction where
  symptoms : List String
  patient_info : PatientFields
  reason_for_consultation : String

/-- Modelled from the spec: the deterministic local post-processing the
missing backend's `extract` tool applies to whatever the reasoning service
returned (spec §4.4 `extract`). -/
def extractPostprocess (raw : RawExtraction) : MedicalExtraction :=
  { symptoms := raw.symptoms
    patient_info := fillPatient raw.patient_info
    reason_for_consultation := raw.reason_for_consultation }

/-- Error taxonomy relevant to the diagnose tool (spec §7). -/
inductive ToolError
  | validationError (msg : String)
  | externalServiceError (msg : String)
deriving DecidableEq

/-- Modelled from the spec: the missing backend's `diagnose` tool — empty
symptom list short-circuits to a `ValidationError` before any external call;
otherwise the reasoning service `svc` is invoked once (spec §4.4 `diagnose`).
The boolean records whether the external service was invoked. -/
def diagnose (svc : MedicalExtraction → Except ToolError String)
    (e : MedicalExtraction) : Except ToolError String × Bool :=
  if e.symptoms.isEmpty then
    (.error (.validationError "symptoms list is empty"), false)
  else
    (svc e, true)

/-! ## Helper lemmas -/

/-- `listContainsSub` finds exactly the contiguous occurrences. -/
theorem listContainsSub_iff (needle hay : List Char) :
    listContainsSub needle hay = true ↔ ∃ pre post, hay = pre ++ needle ++ post := by
  induction hay with
  | nil =>
      simp only [listContainsSub, List.isEmpty_iff]
      constructor
      · intro h
        exact ⟨[], [], by simp [h]⟩
      · rintro ⟨pre, post, h⟩
        rcases List.append_eq_nil.mp (List.append_eq_nil.mp h.symm).1 with ⟨-, h2⟩
        exact h2
  | cons c rest ih =>
      simp only [listContainsSub, Bool.or_eq_true, List.isPrefixOf_iff_prefix, ih]
      constructor
      · rintro (⟨t, ht⟩ | ⟨pre, post, h⟩)
        · exact ⟨[], t, by simp [ht]⟩
        · exact ⟨c :: pre, post, by simp [h]⟩
      · rintro ⟨pre, post, h⟩
        cases pre with
        | nil =>
            left
            exact ⟨post, by simpa using h.symm⟩
        | cons p ps =>
            right
            rw [List.cons_append, List.cons_append] at h
            exact ⟨ps, post, by simpa using (by simpa using h : c = p ∧ rest = ps ++ (needle ++ post)).2⟩

/-- A string contains any of its own suffixes. -/
theorem strContainsSub_append_right (p d : String) :
    strContainsSub (p ++ d) d = true := by
  rw [strContainsSub]
  exact (listContainsSub_iff d.data (p ++ d).data).mpr
    ⟨p.data, [], by simp [String.data_append]⟩

/-! ## Claims -/

/-- Claim C7: the API client imposes no request timeout on any operation
except audio transcription, which alone is configured with a 120000
millisecond timeout; every other call has no timeout and may block
unboundedly on a slow backend. -/
theorem requestTimeout_only_transcription (op : ApiOp) :
    requestTimeout op = (if op = ApiOp.transcribeUrl then some 120000 else none) := by
  cases op <;> rfl

/-- Claim C4, counterexample: the caller-supplied session id `some ""` is
non-null, yet `sendChatMessage` omits the `session_id` field from the
payload, because the code tests JS truthiness (`if (sessionId)`), not
nullness. -/
theorem sendChat_sessionId_counterexample :
    (sendChatMessagePayload "hi" (some "")).session_id = none ∧
    (some "" : Option String) ≠ none := by
  constructor
  · rfl
  · simp

/-- Claim C4 (amended): the chat request contains the message text, and
contains a `session_id` field exactly when the caller supplied a truthy
(non-null and non-empty) session id, which is passed through unchanged; a
successful call passes the service's response data — response text, agent
used, session id — through unmodified. -/
theorem sendChat_payload_spec (m : String) (sid : Option String)
    (net : ChatPayload → Except AxiosError ChatResponse) :
    (sendChatMessagePayload m sid).message = m ∧
    ((∃ s, (sendChatMessagePayload m sid).session_id = some s) ↔
      (∃ s, sid = some s ∧ s ≠ "")) ∧
    (∀ s, (sendChatMessagePayload m sid).session_id = some s → sid = some s) ∧
    (∀ r, sendChatMessage m sid net = .ok r →
      net (sendChatMessagePayload m sid) = .ok r) := by
  refine ⟨rfl, ?_, ?_, ?_⟩
  · cases sid with
    | none => simp [sendChatMessagePayload, jsTruthy]
    | some s =>
        by_cases hs : s = ""
        · subst hs
          simp [sendChatMessagePayload, jsTruthy]
        · simp [sendChatMessagePayload, jsTruthy, hs]
  · intro s hs
    cases sid with
    | none => simp [sendChatMessagePayload, jsTruthy] at hs
    | some s0 =>
        by_cases h0 : s0 = ""
        · subst h0
          simp [sendChatMessagePayload, jsTruthy] at hs
        · simpa [sendChatMessagePayload, jsTruthy, h0] using hs
  · intro r hr
    rw [sendChatMessage] at hr
    cases hnet : net (sendChatMessagePayload m sid) with
    | ok a => rw [hnet] at hr; simpa [runOp] using hr
    | error e => rw [hnet] at hr; simp [runOp] at hr

/-- Witness for claim C4's amended theorem at a concrete invocation. -/
theorem sendChat_payload_spec_witness :
    (some "abc" : Option String) = some "abc" ∧
    (fun _ : ChatPayload =>
        (Except.ok { response := "ok", agent_used := "medical", session_id := "abc" }
          : Except AxiosError ChatResponse))
      (sendChatMessagePayload "hello" (some "abc")) =
      Except.ok { response := "ok", agent_used := "medical", session_id := "abc" } :=
  ⟨(sendChat_payload_spec "hello" (some "abc")
      (fun _ => Except.ok { response := "ok", agent_used := "medical", session_id := "abc" })).2.2.1
      "abc" rfl,
   (sendChat_payload_spec "hello" (some "abc")
      (fun _ => Except.ok { response := "ok", agent_used := "medical", session_id := "abc" })).2.2.2
      { response := "ok", agent_used := "medical", session_id := "abc" } rfl⟩

/-- Concrete failure for claim C5: server responded with status 500 and an
error body whose `error` field is `"boom"`. -/
def healthCheckFailure : AxiosError :=
  { message := "Request failed with status code 500"
    response := some { errorField := some "boom" } }

/-- Claim C5, counterexample: `healthCheck` received a response carrying the
service-reported detail `"boom"`, but its thrown message wraps only the
transport message — the detail is not included and the message is not the
network-error form. -/
theorem healthCheck_error_detail_counterexample :
    healthCheckErrMsg healthCheckFailure =
      "Health check failed: Request failed with status code 500" ∧
    strContainsSub (healthCheckErrMsg healthCheckFailure) "boom" = false := by
  constructor
  · rfl
  · decide

/-- Claim C5 (amended): every failed service-layer call throws a message
naming the failing operation; chat, extract, diagnose, session delete and
transcription additionally include the service-reported error detail when a
response with a non-empty detail was received, and use the
`Network error: ` form when no response was received; health check, sessions
list and status always wrap only the transport error message. -/
theorem apiService_error_messages (m : String) (b : RespBody) :
    healthCheckErrMsg { message := m, response := some b } = "Health check failed: " ++ m ∧
    healthCheckErrMsg { message := m, response := none } = "Health check failed: " ++ m ∧
    getSessionsErrMsg { message := m, response := some b } = "Failed to get sessions: " ++ m ∧
    getSessionsErrMsg { message := m, response := none } = "Failed to get sessions: " ++ m ∧
    getStatusErrMsg { message := m, response := some b } = "Failed to get system status: " ++ m ∧
    getStatusErrMsg { message := m, response := none } = "Failed to get system status: " ++ m ∧
    sendChatErrMsg { message := m, response := some b } =
      "Chat request failed: " ++ jsOr b.errorField m ∧
    sendChatErrMsg { message := m, response := none } = "Network error: " ++ m ∧
    extractInfoErrMsg { message := m, response := some b } =
      "Extraction failed: " ++ jsOr b.errorField m ∧
    extractInfoErrMsg { message := m, response := none } = "Network error: " ++ m ∧
    generateDiagnosisErrMsg { message := m, response := some b } =
      "Diagnosis generation failed: " ++ jsOr b.errorField m ∧
    generateDiagnosisErrMsg { message := m, response := none } = "Network error: " ++ m ∧
    deleteSessionErrMsg { message := m, response := some b } =
      "Failed to delete session: " ++ jsOr b.errorField m ∧
    deleteSessionErrMsg { message := m, response := none } = "Network error: " ++ m ∧
    transcribeErrMsg { message := m, response := some b } =
      "Audio transcription failed: " ++ jsOr b.errorField m ∧
    transcribeErrMsg { message := m, response := none } = "Network error: " ++ m ∧
    (∀ d, d ≠ "" →
      strContainsSub (sendChatErrMsg { message := m, response := some { errorField := some d } }) d = true ∧
      strContainsSub (extractInfoErrMsg { message := m, response := some { errorField := some d } }) d = true ∧
      strContainsSub (generateDiagnosisErrMsg { message := m, response := some { errorField := some d } }) d = true ∧
      strContainsSub (deleteSessionErrMsg { message := m, response := some { errorField := some d } }) d = true ∧
      strContainsSub (transcribeErrMsg { message := m, response := some { errorField := some d } }) d = true) := by
  refine ⟨rfl, rfl, rfl, rfl, rfl, rfl, rfl, rfl, rfl, rfl, rfl, rfl, rfl, rfl, rfl, rfl, ?_⟩
  intro d hd
  have hor : jsOr (some d) m = d := by simp [jsOr, hd]
  refine ⟨?_, ?_, ?_, ?_, ?_⟩ <;>
    simp only [sendChatErrMsg, extractInfoErrMsg, generateDiagnosisErrMsg,
      deleteSessionErrMsg, transcribeErrMsg, hor] <;>
    exact strContainsSub_append_right _ d

/-- Witness for claim C5's amended theorem: with detail `"boom"`, each of
the five distinguishing operations includes the detail in its thrown
message. -/
theorem apiService_error_messages_witness :
    strContainsSub (sendChatErrMsg { message := "m", response := some { errorField := some "boom" } }) "boom" = true ∧
    strContainsSub (extractInfoErrMsg { message := "m", response := some { errorField := some "boom" } }) "boom" = true ∧
    strContainsSub (generateDiagnosisErrMsg { message := "m", response := some { errorField := some "boom" } }) "boom" = true ∧
    strContainsSub (deleteSessionErrMsg { message := "m", response := some { errorField := some "boom" } }) "boom" = true ∧
    strContainsSub (transcribeErrMsg { message := "m", response := some { errorField := some "boom" } }) "boom" = true := by
  have h := (apiService_error_messages "m" { errorField := some "boom" }).2.2.2.2.2.2.2.2.2.2.2.2.2.2.2.2
  exact h "boom" (by decide)

/-- A post-processed string field is either the value the reasoning service
returned or the sentinel. -/
def fieldOk (raw : Option String) (out : String) : Prop :=
  (∃ v, raw = some v ∧ out = v) ∨ out = notProvided

/-- Claim C1: every `MedicalExtraction` produced by the extract operation
carries all six `PatientIdentification` fields — name, age, identification
number, gender, phone, address — each holding either a real value (for
gender possibly the inferred one) or the explicit "Not provided" sentinel;
no field is ever absent, whatever the reasoning service returned. -/
theorem extraction_fields_always_present (raw : RawExtraction) :
    fieldOk raw.patient_info.name (extractPostprocess raw).patient_info.name ∧
    ((∃ a, raw.patient_info.age = some a ∧
        (extractPostprocess raw).patient_info.age = toString a) ∨
      (extractPostprocess raw).patient_info.age = notProvided) ∧
    fieldOk raw.patient_info.identification_number
      (extractPostprocess raw).patient_info.identification_number ∧
    ((∃ g, raw.patient_info.gender = some g ∧
        (extractPostprocess raw).patient_info.gender = g) ∨
      (∃ n g, raw.patient_info.name = some n ∧
        lookupGender (firstNameOf n) = some g ∧
        (extractPostprocess raw).patient_info.gender = g) ∨
      (extractPostprocess raw).patient_info.gender = notProvided) ∧
    fieldOk raw.patient_info.phone (extractPostprocess raw).patient_info.phone ∧
    fieldOk raw.patient_info.address (extractPostprocess raw).patient_info.address := by
  obtain ⟨symptoms, p, reason⟩ := raw
  obtain ⟨name, age, idn, gender, phone, address⟩ := p
  refine ⟨?_, ?_, ?_, ?_, ?_, ?_⟩
  · cases name with
    | none => right; rfl
    | some v => left; exact ⟨v, rfl, rfl⟩
  · cases age with
    | none => right; rfl
    | some a => left; exact ⟨a, rfl, rfl⟩
  · cases idn with
    | none => right; rfl
    | some v => left; exact ⟨v, rfl, rfl⟩
  · cases gender with
    | some g => left; exact ⟨g, rfl, rfl⟩
    | none =>
        cases name with
        | none => right; right; rfl
        | some n =>
            cases hg : lookupGender (firstNameOf n) with
            | some g =>
                right; left
                refine ⟨n, g, rfl, hg, ?_⟩
                simp [extractPostprocess, fillPatient, genderRule, inferGenderFromName, hg]
            | none =>
                right; right
                simp [extractPostprocess, fillPatient, genderRule, inferGenderFromName, hg]
  · cases phone with
    | none => right; rfl
    | some v => left; exact ⟨v, rfl, rfl⟩
  · cases address with
    | none => right; rfl
    | some v => left; exact ⟨v, rfl, rfl⟩

/-- Claim C2: the gender inference rule is a deterministic pure function of
its input — identical inputs give the identical inferred gender; when the
explicit gender is absent it returns the table's gender for a known
unambiguous first name, and falls soft to the "Not provided" sentinel on
names outside the heuristic table and on a missing name (it is total, so it
never raises). -/
theorem genderRule_deterministic_and_failsoft
    (e1 e2 n1 n2 : Option String) (he : e1 = e2) (hn : n1 = n2) :
    genderRule e1 n1 = genderRule e2 n2 ∧
    (e1 = none → ∀ n g, n1 = some n → lookupGender (firstNameOf n) = some g →
      genderRule e1 n1 = g) ∧
    (e1 = none → ∀ n, n1 = some n → lookupGender (firstNameOf n) = none →
      genderRule e1 n1 = notProvided) ∧
    (e1 = none → n1 = none → genderRule e1 n1 = notProvided) := by
  subst he
  subst hn
  refine ⟨rfl, ?_, ?_, ?_⟩
  · rintro rfl n g rfl hg
    simp [genderRule, inferGenderFromName, hg]
  · rintro rfl n rfl hg
    simp [genderRule, inferGenderFromName, hg]
  · rintro rfl rfl
    rfl

/-- Witness for claim C2: the unisex name "Alex" is outside the heuristic
table, so with no explicit gender the rule returns the sentinel. -/
theorem genderRule_deterministic_and_failsoft_witness :
    genderRule none (some "Alex") = notProvided :=
  (genderRule_deterministic_and_failsoft none none (some "Alex") (some "Alex")
      rfl rfl).2.2.1 rfl "Alex" rfl (by decide)

/-- Claim C3: diagnosing a `MedicalExtraction` whose symptom list is empty
returns a `ValidationError` result and never invokes the external reasoning
service (the invocation flag of `diagnose` stays `false`). -/
theorem diagnose_empty_symptoms_validation_error
    (svc : MedicalExtraction → Except ToolError String) (e : MedicalExtraction)
    (h : e.symptoms = []) :
    diagnose svc e =
      (.error (.validationError "symptoms list is empty"), false) := by
  simp [diagnose, h]

/-- Witness for claim C3 at a concrete symptom-free extraction. -/
theorem diagnose_empty_symptoms_validation_error_witness :
    diagnose (fun _ => .ok "diagnosis text")
      { symptoms := []
        patient_info :=
          { name := "John Doe", age := "35", identification_number := notProvided
            gender := "Male", phone := notProvided, address := notProvided }
        reason_for_consultation := "headache" } =
      (.error (.validationError "symptoms list is empty"), false) :=
  diagnose_empty_symptoms_validation_error _ _ rfl

/-- Claim C8: `validateAudioUrl` is total (the JS catch turns any parse
failure into `false`) and returns `true` exactly when the platform parser
accepts the string and the lowercased pathname contains one of the
substrings `.mp3`, `.wav`, `.m4a`, `.ogg`, `.flac`, `.aac` anywhere — not
only as the final suffix; every unparseable string yields `false`. -/
theorem validateAudioUrl_spec (parse : String → Option String) (s : String) :
    validateAudioUrl parse s = true ↔
      ∃ p, parse s = some p ∧
        ∃ ext ∈ audioExtensions, ∃ pre post,
          (toLowerStr p).data = pre ++ ('.' :: ext.data) ++ post := by
  unfold validateAudioUrl
  cases hp : parse s with
  | none => simp
  | some p =>
      simp only [Option.some.injEq, exists_eq_left', List.any_eq_true]
      constructor
      · rintro ⟨ext, hmem, hsub⟩
        refine ⟨ext, hmem, ?_⟩
        have h := (listContainsSub_iff (String.data ("." ++ ext)) (toLowerStr p).data).mp hsub
        simpa [String.data_append] using h
      · rintro ⟨ext, hmem, pre, post, h⟩
        refine ⟨ext, hmem, ?_⟩
        exact (listContainsSub_iff (String.data ("." ++ ext)) (toLowerStr p).data).mpr
          ⟨pre, post, by simpa [String.data_append] using h⟩

/-- Concrete chat response used by the transcript witnesses. -/
def chatRespSess : ChatResponse :=
  { response := "noted", agent_used := "medical", session_id := "sess" }

/-- Chat stub that always succeeds with `chatRespSess`. -/
def chatOkSvc : String → String → Except String ChatResponse :=
  fun _ _ => .ok chatRespSess

/-- Claim C9: a completed `handleSendMessage` with non-blank input while no
request is in flight appends exactly one user message (the trimmed input)
followed by exactly one further message — an AI message on success, an error
message on failure — leaving every previously appended message unchanged;
with blank input or while loading it leaves the transcript unchanged. -/
theorem handleSendMessage_transcript (input : String) (isLoading : Bool)
    (sessionId : String) (uid aid : Nat)
    (chat : String → String → Except String ChatResponse) (ms : List Msg) :
    (trimStr input = "" ∨ isLoading = true →
      handleSendMessage input isLoading sessionId uid aid chat ms = (ms, none)) ∧
    (trimStr input ≠ "" → isLoading = false →
      ∃ tail : Msg,
        (handleSendMessage input isLoading sessionId uid aid chat ms).1 =
          ms ++ [{ id := uid, mtype := .user, content := trimStr input }, tail] ∧
        ((∃ r, chat (trimStr input) sessionId = .ok r ∧
            tail = { id := aid, mtype := .ai, content := r.response,
                     agentUsed := some r.agent_used }) ∨
          (∃ e, chat (trimStr input) sessionId = .error e ∧
            tail = { id := aid, mtype := .error, content := "Error: " ++ e }))) := by
  constructor
  · intro h
    rcases h with h | h
    · simp [handleSendMessage, h]
    · simp [handleSendMessage, h]
  · intro hin hload
    subst hload
    cases hr : chat (trimStr input) sessionId with
    | ok r =>
        refine ⟨{ id := aid, mtype := .ai, content := r.response,
                  agentUsed := some r.agent_used }, ?_, ?_⟩
        · simp [handleSendMessage, hin, hr]
        · left; exact ⟨r, rfl, rfl⟩
    | error e =>
        refine ⟨{ id := aid, mtype := .error, content := "Error: " ++ e }, ?_, ?_⟩
        · simp [handleSendMessage, hin, hr]
        · right; exact ⟨e, rfl, rfl⟩

/-- Witness for claim C9: sending "hi" on an empty transcript with a
succeeding chat call appends the user message and one follow-up message. -/
theorem handleSendMessage_transcript_witness :
    ∃ tail : Msg,
      (handleSendMessage "hi" false "sess" 0 1 chatOkSvc []).1 =
        [] ++ [{ id := 0, mtype := .user, content := trimStr "hi" }, tail] ∧
      ((∃ r, chatOkSvc (trimStr "hi") "sess" = .ok r ∧
          tail = { id := 1, mtype := .ai, content := r.response,
                   agentUsed := some r.agent_used }) ∨
        (∃ e, chatOkSvc (trimStr "hi") "sess" = .error e ∧
          tail = { id := 1, mtype := .error, content := "Error: " ++ e })) :=
  (handleSendMessage_transcript "hi" false "sess" 0 1 chatOkSvc []).2 (by decide) rfl

/-- Claim C10: when the audio-submission path fails after the processing
notice was added — at transcription, or at the follow-up chat call — every
message of type `system` (not only this submission's processing notice) is
removed from the transcript, exactly one error message is appended, and all
user, AI and error messages present before the failure are preserved
unchanged and in order. -/
theorem audioSubmit_failure_transcript (parse : String → Option String)
    (audioUrl sessionId : String) (pid uid aid eid : Nat)
    (transcribe : String → Except String String)
    (chat : String → String → Except String ChatResponse) (ms : List Msg)
    (hurl : trimStr audioUrl ≠ "") (hvalid : validateAudioUrl parse audioUrl = true) :
    (∀ e, transcribe audioUrl = .error e →
      handleAudioUrlSubmit parse audioUrl sessionId pid uid aid eid transcribe chat ms =
        (ms.filter (fun m => m.mtype != .system) ++
          [{ id := eid, mtype := .error,
             content := "Error transcribing audio: " ++ e }], none)) ∧
    (∀ t e, transcribe audioUrl = .ok t → chat t sessionId = .error e →
      (∀ m ∈ ms, m.id ≠ pid) →
      handleAudioUrlSubmit parse audioUrl sessionId pid uid aid eid transcribe chat ms =
        ((ms ++ [({ id := uid, mtype := .user, content := t } : Msg)]).filter
            (fun m => m.mtype != .system) ++
          [{ id := eid, mtype := .error,
             content := "Error transcribing audio: " ++ e }],
         some (t, sessionId))) := by
  have e1 : (MsgType.system != MsgType.system) = false := rfl
  have e2 : (MsgType.user != MsgType.system) = true := rfl
  constructor
  · intro e he
    simp [handleAudioUrlSubmit, hurl, hvalid, he, List.filter_append, e1]
  · intro t e ht hc hfresh
    have hms : ms.filter (fun m => m.id != pid) = ms :=
      List.filter_eq_self.mpr (fun m hm => bne_iff_ne.mpr (hfresh m hm))
    simp [handleAudioUrlSubmit, hurl, hvalid, ht, hc, List.filter_append,
      hms, e1, e2]

/-- Witness for claim C10 at a concrete failing transcription. -/
theorem audioSubmit_failure_transcript_witness :
    handleAudioUrlSubmit (fun _ => some "/a.mp3") "http://x/a.mp3" "sess" 7 8 9 10
        (fun _ => Except.error "timeout") chatOkSvc [] =
      (List.filter (fun m => m.mtype != .system) ([] : List Msg) ++
        [{ id := 10, mtype := .error,
           content := "Error transcribing audio: " ++ "timeout" }], none) :=
  (audioSubmit_failure_transcript (fun _ => some "/a.mp3") "http://x/a.mp3" "sess"
      7 8 9 10 (fun _ => Except.error "timeout") chatOkSvc []
      (by decide) (by decide)).1 "timeout" rfl

/-- Claim C6: after a successful transcription, the audio-submission path
invokes the same chat operation with the transcribed text and the same
session id, records the transcribed text as a user message in the
transcript, and — for already-trimmed, non-blank transcriptions whose chat
call succeeds — its whole transcript-and-invocation effect coincides with
typing the transcribed text as a normal chat message. -/
theorem audioSubmit_success_equals_chat (parse : String → Option String)
    (audioUrl sessionId t : String) (pid uid aid eid : Nat)
    (transcribe : String → Except String String)
    (chat : String → String → Except String ChatResponse) (ms : List Msg)
    (hurl : trimStr audioUrl ≠ "") (hvalid : validateAudioUrl parse audioUrl = true)
    (ht : transcribe audioUrl = .ok t) (hfresh : ∀ m ∈ ms, m.id ≠ pid) :
    (handleAudioUrlSubmit parse audioUrl sessionId pid uid aid eid transcribe chat ms).2 =
      some (t, sessionId) ∧
    ({ id := uid, mtype := .user, content := t, agentUsed := none } : Msg) ∈
      (handleAudioUrlSubmit parse audioUrl sessionId pid uid aid eid transcribe chat ms).1 ∧
    (trimStr t = t → t ≠ "" → ∀ r, chat t sessionId = .ok r →
      handleAudioUrlSubmit parse audioUrl sessionId pid uid aid eid transcribe chat ms =
        handleSendMessage t false sessionId uid aid chat ms) := by
  have hms : ms.filter (fun m => m.id != pid) = ms :=
    List.filter_eq_self.mpr (fun m hm => bne_iff_ne.mpr (hfresh m hm))
  have e1 : (MsgType.system != MsgType.system) = false := rfl
  have e2 : (MsgType.user != MsgType.system) = true := rfl
  refine ⟨?_, ?_, ?_⟩
  · cases hc : chat t sessionId with
    | ok r =>
        simp [handleAudioUrlSubmit, hurl, hvalid, ht, hc]
    | error e =>
        simp [handleAudioUrlSubmit, hurl, hvalid, ht, hc]
  · cases hc : chat t sessionId with
    | ok r =>
        simp [handleAudioUrlSubmit, hurl, hvalid, ht, hc, List.filter_append,
          hms, e1, e2]
    | error e =>
        simp [handleAudioUrlSubmit, hurl, hvalid, ht, hc, List.filter_append,
          hms, e1, e2]
  · intro htrim hne r hc
    simp [handleAudioUrlSubmit, handleSendMessage, hurl, hvalid, ht, hc,
      List.filter_append, hms, e1, e2, htrim, hne]

/-- Witness for claim C6 at a concrete successful transcription and chat
call. -/
theorem audioSubmit_success_equals_chat_witness :
    handleAudioUrlSubmit (fun _ => some "/a.mp3") "http://x/a.mp3" "sess" 7 8 9 10
        (fun _ => Except.ok "fever") chatOkSvc [] =
      handleSendMessage "fever" false "sess" 8 9 chatOkSvc [] :=
  (audioSubmit_success_equals_chat (fun _ => some "/a.mp3") "http://x/a.mp3" "sess"
      "fever" 7 8 9 10 (fun _ => Except.ok "fever") chatOkSvc []
      (by decide) (by decide) rfl (by simp)).2.2 (by decide) (by decide)
      chatRespSess rfl

end TechTest
